import Mathlib

/-
Verification of the FloatingBackground widget
(src/crates/eww/src/widgets/floating_background.rs).

Shallow embedding conventions:
- f64 values are modelled as the exact rationals (ℚ) they denote; every
  arithmetic operation the transition stepper performs on them is followed
  by an explicit IEEE-754 binary64 rounding (round to nearest, ties to
  even, 53-bit significand), so the stepper's accumulation of the literal
  0.1 behaves exactly as the program's f64 arithmetic does.
- gdk::RGBA is a record of four rational channels.
- The glib periodic stepper (timeout_add_local) is modelled as a pure
  callback plus a fuel-driven host loop that keeps invoking the callback
  until it returns ControlFlow.Break (or fuel runs out, modelling a host
  that stops calling).
- The cairo drawing context is modelled by a log of emitted drawing
  operations plus an environment (DrawEnv) that decides, per fallible
  cairo call (save/fill/restore, numbered in execution order), whether
  that call reports an error.
- Rust "as i32" on a nonnegative f64 truncates toward zero; rustTruncToInt
  models that on ℚ.
-/

set_option maxHeartbeats 1000000

namespace Eww

/-- RGBA color with rational channels, modelling gdk::RGBA. -/
structure RGBA where
  red : ℚ
  green : ℚ
  blue : ℚ
  alpha : ℚ
deriving DecidableEq

/-- gdk::RGBA::WHITE. -/
def RGBA.WHITE : RGBA := ⟨1, 1, 1, 1⟩

/-- The animated visual state, modelling struct FloatingBackgroundState
(fields margin, radius, color). -/
structure FloatingBackgroundState where
  margin : ℚ
  radius : ℚ
  color : RGBA
deriving DecidableEq

/-- The easing closure defined inside FloatingBackgroundPriv::transition:
progress * progress * (max - min) + min, as a mathematical formula over
exact values. -/
def easing (progress min max : ℚ) : ℚ :=
  progress * progress * (max - min) + min

/-- Round-half-to-even of a rational to an integer (the tie-breaking rule
of IEEE-754 round-to-nearest). -/
def roundHalfEven (x : ℚ) : ℤ :=
  let n := ⌊x⌋
  let f := x - n
  if f < 1 / 2 then n
  else if 1 / 2 < f then n + 1
  else if 2 ∣ n then n else n + 1

/-- Round a rational to the nearest IEEE-754 binary64 value (round to
nearest, ties to even, 53-bit significand): the significand is rounded at
the scale 2 ^ (e - 52) where 2 ^ e ≤ |q| < 2 ^ (e + 1).  Valid on the
normal range (all values of this development lie far inside it); 0 maps
to 0. -/
def roundF64 (q : ℚ) : ℚ :=
  if q = 0 then 0
  else ((roundHalfEven (q / 2 ^ (Int.log 2 |q| - 52)) : ℤ) : ℚ)
    * 2 ^ (Int.log 2 |q| - 52)

/-- IEEE binary64 addition: the exact sum, rounded to the nearest double. -/
def f64Add (x y : ℚ) : ℚ := roundF64 (x + y)

/-- IEEE binary64 subtraction: the exact difference, rounded. -/
def f64Sub (x y : ℚ) : ℚ := roundF64 (x - y)

/-- IEEE binary64 multiplication: the exact product, rounded. -/
def f64Mul (x y : ℚ) : ℚ := roundF64 (x * y)

/-- The IEEE double nearest to the source literal 0.1 (the step the
stepper adds to progress on every tick). -/
def f64Tenth : ℚ := 3602879701896397 / 2 ^ 55

/-- The IEEE double nearest to the literal 0.8 (the default
floating_opacity). -/
def f64PointEight : ℚ := 3602879701896397 / 2 ^ 52

/-- The easing closure as the program evaluates it on f64 values: every
operation of progress * progress * (max - min) + min rounds to the nearest
double.  The exact formula it implements is easing. -/
def easingF64 (progress min max : ℚ) : ℚ :=
  f64Add (f64Mul (f64Mul progress progress) (f64Sub max min)) min

/-- The exact f64 value of the stepper's progress counter after its k-th
tick (k = 1..11), accumulating the double nearest to 0.1 from 0 with a
binary64 addition per tick; after ten ticks it stands at
0.9999999999999999, just short of 1, and the 11th tick reaches
1.0999999999999999.  Certified against f64Add by the f64Step lemmas. -/
def stepperProgressF64 : ℕ → ℚ
  | 1 => 3602879701896397 / 2 ^ 55
  | 2 => 3602879701896397 / 2 ^ 54
  | 3 => 1351079888211149 / 2 ^ 52
  | 4 => 3602879701896397 / 2 ^ 53
  | 5 => 1 / 2
  | 6 => 5404319552844595 / 2 ^ 53
  | 7 => 3152519739159347 / 2 ^ 52
  | 8 => 7205759403792793 / 2 ^ 53
  | 9 => 2026619832316723 / 2 ^ 51
  | 10 => 9007199254740991 / 2 ^ 53
  | 11 => 4953959590107545 / 2 ^ 52
  | _ => 0

/-- The ambient style context, as consumed by transition: the resolved
"background-color" style property for the NORMAL state, where a failed
lookup falls back to white via unwrap_or(gdk::RGBA::WHITE). -/
structure Style where
  backgroundColorNormal : Option RGBA
deriving DecidableEq

/-- The values captured by the transition closure at transition-start time:
the requested floating value, the configuration snapshot, and the sampled
base background color. -/
structure Snapshot where
  value : Bool
  max_margin : ℚ
  max_radius : ℚ
  floating_opacity : ℚ
  bg_color : RGBA
deriving DecidableEq

/-- glib::ControlFlow, the value returned by a timeout callback. -/
inductive ControlFlow
  | Continue
  | Break
deriving DecidableEq

/-- The mutable state captured by the timeout closure: the progress counter
and the shared visual state. -/
structure CallbackState where
  progress : ℚ
  st : FloatingBackgroundState
deriving DecidableEq

/-- One assignment pass of the timeout closure body over the visual state:
prog is the f64 difference 1 - progress when un-floating, margin/radius/
alpha are recomputed from the snapshot by the f64 easing; the color's rgb
channels are left as they are (only set_alpha is called). -/
def tickUpdate (snap : Snapshot) (progress : ℚ) (st : FloatingBackgroundState) :
    FloatingBackgroundState :=
  let prog := if !snap.value then f64Sub 1 progress else progress
  { margin := easingF64 prog 0 snap.max_margin
    radius := easingF64 prog 0 snap.max_radius
    color := { st.color with
      alpha := easingF64 prog snap.bg_color.alpha snap.floating_opacity } }

/-- One invocation of the timeout closure: progress += 0.1 (a binary64
addition of the double nearest to 0.1), visual state updated, then Break
once progress >= 1, Continue otherwise.  Each tick also queues one redraw
(queue_draw), so the tick count doubles as the redraw count. -/
def stepperTick (snap : Snapshot) (cs : CallbackState) : CallbackState × ControlFlow :=
  let progress := f64Add cs.progress f64Tenth
  (⟨progress, tickUpdate snap progress cs.st⟩,
    if progress ≥ 1 then ControlFlow.Break else ControlFlow.Continue)

/-- The outcome of the host event loop driving a timeout callback:
the final callback state, how many times the callback ran, and whether it
stopped by returning Break (as opposed to the host giving up). -/
structure RunResult where
  final : CallbackState
  ticks : ℕ
  stopped : Bool
deriving DecidableEq

/-- The host event loop for glib::timeout_add_local: keeps invoking the
callback while it returns Continue; fuel bounds how many times the host is
willing to call. -/
def runStepper (snap : Snapshot) : ℕ → CallbackState → RunResult
  | 0, cs => ⟨cs, 0, false⟩
  | n + 1, cs =>
    let t := stepperTick snap cs
    if t.2 = ControlFlow.Break then ⟨t.1, 1, true⟩
    else
      let r := runStepper snap n t.1
      ⟨r.final, r.ticks + 1, r.stopped⟩

/-- The widget-level state read and written by
FloatingBackgroundPriv::transition: the floating flag, the three
configuration properties and the shared visual state. -/
structure FloatingBackgroundWidget where
  floating : Bool
  max_margin : ℚ
  max_radius : ℚ
  floating_opacity : ℚ
  state : FloatingBackgroundState
deriving DecidableEq

/-- FloatingBackgroundPriv::transition(value): returns unchanged with no
scheduled stepper when the floating flag already equals value; otherwise
records the flag, samples the style background color (falling back to
white), writes it into the shared state, snapshots the configuration, and
schedules the periodic stepper (returned as the Snapshot it captures, with
progress initialized to 0). -/
def transition (style : Style) (w : FloatingBackgroundWidget) (value : Bool) :
    FloatingBackgroundWidget × Option Snapshot :=
  if w.floating == value then (w, none)
  else
    let bg_color := style.backgroundColorNormal.getD RGBA.WHITE
    ({ w with
        floating := value
        state := { w.state with color := bg_color } },
      some ⟨value, w.max_margin, w.max_radius, w.floating_opacity, bg_color⟩)

/-- A transition run to natural completion: transition(value) followed by
the host event loop driving the scheduled stepper until it breaks (ample
fuel; the stepper breaks on its 11th call, see runStepper_f64_complete). -/
def completeTransition (style : Style) (w : FloatingBackgroundWidget) (value : Bool) :
    FloatingBackgroundWidget :=
  match transition style w value with
  | (w1, none) => w1
  | (w1, some snap) => { w1 with state := (runStepper snap 100 ⟨0, w1.state⟩).final.st }

/-- GtkBorder (the style padding for the NORMAL state); fields are machine
integers in the source. -/
structure Border where
  top : ℤ
  bottom : ℤ
  left : ℤ
  right : ℤ
deriving DecidableEq

/-- The widget's gdk window, as queried for width/height in draw. -/
structure Window where
  width : ℤ
  height : ℤ
deriving DecidableEq

/-- The child widget held in the content slot, with its four margin
properties (set_margin_top / set_margin_start / set_margin_end write them;
the bottom margin is never written by draw). -/
structure ChildWidget where
  margin_top : ℤ
  margin_bottom : ℤ
  margin_start : ℤ
  margin_end : ℤ
deriving DecidableEq

/-- The drawing operations draw performs against the cairo context and the
child widget, in emission order.  cr.arc takes angles in radians in the
source; since each angle is written as a degree literal converted with
to_radians (an injective fixed scaling), the arc operation records the
degree values. -/
inductive DrawOp
  | save
  | setSourceRgba (red green blue alpha : ℚ)
  | newSubPath
  | arc (xc yc radius angleStartDeg angleEndDeg : ℚ)
  | closePath
  | fill
  | restore
  | setMarginTop (v : ℤ)
  | setMarginStart (v : ℤ)
  | setMarginEnd (v : ℤ)
  | propagateDraw
  | resetClip
deriving DecidableEq

/-- gtk::glib::Propagation, the value returned by WidgetImpl::draw. -/
inductive Propagation
  | Proceed
  | Stop
deriving DecidableEq

/-- The environment a draw call runs against: the widget's window (None
when unrealized), the style padding for the NORMAL state, and which of the
fallible cairo calls fail.  fails k decides whether the k-th fallible
cairo call of the draw body errors, numbered in execution order:
0 = first save, 1 = fill, 2 = first restore, 3 = second save,
4 = second restore. -/
structure DrawEnv where
  window : Option Window
  padding : Border
  fails : ℕ → Bool

/-- The parts of the widget that draw reads or writes: the shared visual
state and the content slot. -/
structure DrawWidget where
  state : FloatingBackgroundState
  content : Option ChildWidget
deriving DecidableEq

/-- The observable outcome of one draw call: whether it panicked (window
unwrap on None), whether the inner Result closure returned an error that
was then reported through error_handling_ctx::print_error, the emitted
drawing operations, and the returned Propagation (none when panicking,
since a panic never returns). -/
structure DrawOutcome where
  panicked : Bool
  reported : Bool
  ops : List DrawOp
  propagation : Option Propagation
deriving DecidableEq

/-- Rust numeric cast "as i32" on an f64: truncation toward zero. -/
def rustTruncToInt (q : ℚ) : ℤ :=
  if 0 ≤ q then Int.floor q else Int.ceil q

/-- WidgetImpl::draw: reads the visual state, resolves the padding, unwraps
the window (panicking when it is None), then inside a Result closure:
save, set_source_rgba, new_sub_path, four arcs (top-left, top-right,
bottom-right, bottom-left), close_path, fill, restore; then, when a child
is present: save, set the child's top/start/end margins from the truncated
margin plus padding, propagate_draw, reset_clip, restore.  The first error
of a fallible cairo call aborts the closure; an Err result is reported via
print_error.  The function always returns Propagation::Proceed when it
returns at all. -/
def draw (w : DrawWidget) (env : DrawEnv) : DrawWidget × DrawOutcome :=
  match env.window with
  | none => (w, ⟨true, false, [], none⟩)
  | some win =>
    let margin := w.state.margin
    let radius := w.state.radius
    let color := w.state.color
    let padding := env.padding
    let height : ℚ := (win.height : ℚ)
    let width : ℚ := (win.width : ℚ)
    let ops0 := [DrawOp.save]
    if env.fails 0 then (w, ⟨false, true, ops0, some Propagation.Proceed⟩)
    else
      let ops1 := ops0 ++
        [DrawOp.setSourceRgba color.red color.green color.blue color.alpha,
         DrawOp.newSubPath,
         DrawOp.arc (margin + radius) (margin + radius) radius 180 270,
         DrawOp.arc (width - radius - margin) (margin + radius) radius 270 0,
         DrawOp.arc (width - radius - margin) (height - radius) radius 0 90,
         DrawOp.arc (margin + radius) (height - radius) radius 90 180,
         DrawOp.closePath,
         DrawOp.fill]
      if env.fails 1 then (w, ⟨false, true, ops1, some Propagation.Proceed⟩)
      else
        let ops2 := ops1 ++ [DrawOp.restore]
        if env.fails 2 then (w, ⟨false, true, ops2, some Propagation.Proceed⟩)
        else
          match w.content with
          | none => (w, ⟨false, false, ops2, some Propagation.Proceed⟩)
          | some child =>
            let ops3 := ops2 ++ [DrawOp.save]
            if env.fails 3 then (w, ⟨false, true, ops3, some Propagation.Proceed⟩)
            else
              let padding_start := rustTruncToInt margin + padding.left
              let padding_top := rustTruncToInt margin + padding.top
              let child1 : ChildWidget :=
                { child with
                    margin_top := padding_top
                    margin_start := padding_start
                    margin_end := padding_start }
              let w1 := { w with content := some child1 }
              let ops4 := ops3 ++
                [DrawOp.setMarginTop padding_top,
                 DrawOp.setMarginStart padding_start,
                 DrawOp.setMarginEnd padding_start,
                 DrawOp.propagateDraw,
                 DrawOp.resetClip,
                 DrawOp.restore]
              if env.fails 4 then (w1, ⟨false, true, ops4, some Propagation.Proceed⟩)
              else (w1, ⟨false, false, ops4, some Propagation.Proceed⟩)

/-- Selector for path-construction operations (new_sub_path, arc,
close_path) among the drawing operations. -/
def isPathOp : DrawOp → Bool
  | DrawOp.newSubPath => true
  | DrawOp.arc _ _ _ _ _ => true
  | DrawOp.closePath => true
  | _ => false

/-- The path-construction operations emitted by the source's draw body, in
order: top-left, top-right, bottom-right, bottom-left quarter arcs, then
close_path.  Note the two bottom arcs center at height - radius: the bottom
edge is not inset by the margin. -/
def sourcePathOps (margin radius width height : ℚ) : List DrawOp :=
  [DrawOp.newSubPath,
   DrawOp.arc (margin + radius) (margin + radius) radius 180 270,
   DrawOp.arc (width - radius - margin) (margin + radius) radius 270 0,
   DrawOp.arc (width - radius - margin) (height - radius) radius 0 90,
   DrawOp.arc (margin + radius) (height - radius) radius 90 180,
   DrawOp.closePath]

/-- Modelled from the spec: the rounded-rectangle path the spec describes,
inset by the margin on ALL four sides (so the bottom arcs center at
height - radius - margin), four quarter arcs ordered top-left, top-right,
bottom-right, bottom-left, closed.  Used only to compare the spec's wording
against the code's path. -/
def specPathOpsAllSides (margin radius width height : ℚ) : List DrawOp :=
  [DrawOp.newSubPath,
   DrawOp.arc (margin + radius) (margin + radius) radius 180 270,
   DrawOp.arc (width - radius - margin) (margin + radius) radius 270 0,
   DrawOp.arc (width - radius - margin) (height - radius - margin) radius 0 90,
   DrawOp.arc (margin + radius) (height - radius - margin) radius 90 180,
   DrawOp.closePath]

/-- A failure schedule under which no cairo call fails. -/
def allSucceed : ℕ → Bool := fun _ => false

/-- A failure schedule under which exactly the fill call (the second
fallible cairo call) fails. -/
def failFill : ℕ → Bool := fun k => k == 1

/-- The container state touched by ContainerImpl::add: the content slot,
the underlying Bin's child list, the removal notifications sent so far
(parent_remove calls), and how many errors were reported through
error_handling_ctx::print_error.  Widgets are identified by naturals. -/
structure ContainerState where
  content : Option ℕ
  binChildren : List ℕ
  removals : List ℕ
  errorsReported : ℕ
deriving DecidableEq

/-- ContainerImpl::add(widget): when a child is already present, report an
error (not fatal: execution continues) and parent_remove the stale child;
then parent_add the new widget and store it in the content slot. -/
def add (c : ContainerState) (widget : ℕ) : ContainerState :=
  match c.content with
  | some old =>
    { content := some widget
      binChildren := (c.binChildren.erase old) ++ [widget]
      removals := c.removals ++ [old]
      errorsReported := c.errorsReported + 1 }
  | none =>
    { c with
        content := some widget
        binChildren := c.binChildren ++ [widget] }

/-- The single-child well-formedness of the container: the Bin child list
holds exactly the widget in the content slot, or is empty when the slot is. -/
def singleChildInv (c : ContainerState) : Prop :=
  (c.content = none ∧ c.binChildren = []) ∨
    (∃ x, c.content = some x ∧ c.binChildren = [x])

/-- Composing two tick updates keeps only the last one: the visual state is
recomputed from scratch each tick, except the rgb channels, which every
tick preserves. -/
theorem tickUpdate_tickUpdate (snap : Snapshot) (p q : ℚ) (st : FloatingBackgroundState) :
    tickUpdate snap p (tickUpdate snap q st) = tickUpdate snap p st := rfl

/-- Uniqueness of the dyadic exponent: when 2 ^ e ≤ r < 2 ^ (e + 1), the
base-2 integer logarithm of r is e. -/
theorem int_log2_eq {r : ℚ} {e : ℤ} (h1 : (2 : ℚ) ^ e ≤ r) (h2 : r < (2 : ℚ) ^ (e + 1)) :
    Int.log 2 r = e := by
  have hr : (0 : ℚ) < r := lt_of_lt_of_le (by positivity) h1
  have ha : e ≤ Int.log 2 r := by
    rw [← Int.zpow_le_iff_le_log one_lt_two hr]
    exact_mod_cast h1
  have hb : Int.log 2 r < e + 1 := by
    rw [← Int.lt_zpow_iff_log_lt one_lt_two hr]
    exact_mod_cast h2
  omega

/-- Evaluation rule for roundF64: exhibit the dyadic exponent e of the
input and the rounded significand computation at scale 2 ^ (e - 52). -/
theorem roundF64_eval (q r : ℚ) (e : ℤ) (h0 : q ≠ 0)
    (h1 : (2 : ℚ) ^ e ≤ |q|) (h2 : |q| < (2 : ℚ) ^ (e + 1))
    (hr : ((roundHalfEven (q / 2 ^ (e - 52)) : ℤ) : ℚ) * 2 ^ (e - 52) = r) :
    roundF64 q = r := by
  unfold roundF64
  rw [if_neg h0, int_log2_eq h1 h2, hr]

/-- Tick 1 of the stepper's f64 accumulation of 0.1. -/
theorem f64Step01 : f64Add (0 : ℚ) f64Tenth = stepperProgressF64 1 := by
  unfold f64Add
  rw [show (0 : ℚ) + f64Tenth = 3602879701896397 / 2 ^ 55 from by
    norm_num [f64Tenth]]
  apply roundF64_eval _ _ (-4) (by norm_num)
  · rw [abs_of_pos (by norm_num)]; norm_num
  · rw [abs_of_pos (by norm_num)]; norm_num
  · norm_num [roundHalfEven, stepperProgressF64]
/-- Tick 2 of the stepper's f64 accumulation of 0.1. -/
theorem f64Step02 : f64Add (stepperProgressF64 1) f64Tenth = stepperProgressF64 2 := by
  unfold f64Add
  rw [show stepperProgressF64 1 + f64Tenth = 7205759403792794 / 2 ^ 55 from by
    norm_num [stepperProgressF64, f64Tenth]]
  apply roundF64_eval _ _ (-3) (by norm_num)
  · rw [abs_of_pos (by norm_num)]; norm_num
  · rw [abs_of_pos (by norm_num)]; norm_num
  · norm_num [roundHalfEven, stepperProgressF64]
/-- Tick 3 of the stepper's f64 accumulation of 0.1. -/
theorem f64Step03 : f64Add (stepperProgressF64 2) f64Tenth = stepperProgressF64 3 := by
  unfold f64Add
  rw [show stepperProgressF64 2 + f64Tenth = 10808639105689191 / 2 ^ 55 from by
    norm_num [stepperProgressF64, f64Tenth]]
  apply roundF64_eval _ _ (-2) (by norm_num)
  · rw [abs_of_pos (by norm_num)]; norm_num
  · rw [abs_of_pos (by norm_num)]; norm_num
  · norm_num [roundHalfEven, stepperProgressF64]
/-- Tick 4 of the stepper's f64 accumulation of 0.1. -/
theorem f64Step04 : f64Add (stepperProgressF64 3) f64Tenth = stepperProgressF64 4 := by
  unfold f64Add
  rw [show stepperProgressF64 3 + f64Tenth = 14411518807585589 / 2 ^ 55 from by
    norm_num [stepperProgressF64, f64Tenth]]
  apply roundF64_eval _ _ (-2) (by norm_num)
  · rw [abs_of_pos (by norm_num)]; norm_num
  · rw [abs_of_pos (by norm_num)]; norm_num
  · norm_num [roundHalfEven, stepperProgressF64]
/-- Tick 5 of the stepper's f64 accumulation of 0.1. -/
theorem f64Step05 : f64Add (stepperProgressF64 4) f64Tenth = stepperProgressF64 5 := by
  unfold f64Add
  rw [show stepperProgressF64 4 + f64Tenth = 18014398509481985 / 2 ^ 55 from by
    norm_num [stepperProgressF64, f64Tenth]]
  apply roundF64_eval _ _ (-1) (by norm_num)
  · rw [abs_of_pos (by norm_num)]; norm_num
  · rw [abs_of_pos (by norm_num)]; norm_num
  · norm_num [roundHalfEven, stepperProgressF64]
/-- Tick 6 of the stepper's f64 accumulation of 0.1. -/
theorem f64Step06 : f64Add (stepperProgressF64 5) f64Tenth = stepperProgressF64 6 := by
  unfold f64Add
  rw [show stepperProgressF64 5 + f64Tenth = 21617278211378381 / 2 ^ 55 from by
    norm_num [stepperProgressF64, f64Tenth]]
  apply roundF64_eval _ _ (-1) (by norm_num)
  · rw [abs_of_pos (by norm_num)]; norm_num
  · rw [abs_of_pos (by norm_num)]; norm_num
  · norm_num [roundHalfEven, stepperProgressF64]
/-- Tick 7 of the stepper's f64 accumulation of 0.1. -/
theorem f64Step07 : f64Add (stepperProgressF64 6) f64Tenth = stepperProgressF64 7 := by
  unfold f64Add
  rw [show stepperProgressF64 6 + f64Tenth = 25220157913274777 / 2 ^ 55 from by
    norm_num [stepperProgressF64, f64Tenth]]
  apply roundF64_eval _ _ (-1) (by norm_num)
  · rw [abs_of_pos (by norm_num)]; norm_num
  · rw [abs_of_pos (by norm_num)]; norm_num
  · norm_num [roundHalfEven, stepperProgressF64]
/-- Tick 8 of the stepper's f64 accumulation of 0.1. -/
theorem f64Step08 : f64Add (stepperProgressF64 7) f64Tenth = stepperProgressF64 8 := by
  unfold f64Add
  rw [show stepperProgressF64 7 + f64Tenth = 28823037615171173 / 2 ^ 55 from by
    norm_num [stepperProgressF64, f64Tenth]]
  apply roundF64_eval _ _ (-1) (by norm_num)
  · rw [abs_of_pos (by norm_num)]; norm_num
  · rw [abs_of_pos (by norm_num)]; norm_num
  · norm_num [roundHalfEven, stepperProgressF64]
/-- Tick 9 of the stepper's f64 accumulation of 0.1. -/
theorem f64Step09 : f64Add (stepperProgressF64 8) f64Tenth = stepperProgressF64 9 := by
  unfold f64Add
  rw [show stepperProgressF64 8 + f64Tenth = 32425917317067569 / 2 ^ 55 from by
    norm_num [stepperProgressF64, f64Tenth]]
  apply roundF64_eval _ _ (-1) (by norm_num)
  · rw [abs_of_pos (by norm_num)]; norm_num
  · rw [abs_of_pos (by norm_num)]; norm_num
  · norm_num [roundHalfEven, stepperProgressF64]
/-- Tick 10 of the stepper's f64 accumulation of 0.1. -/
theorem f64Step10 : f64Add (stepperProgressF64 9) f64Tenth = stepperProgressF64 10 := by
  unfold f64Add
  rw [show stepperProgressF64 9 + f64Tenth = 36028797018963965 / 2 ^ 55 from by
    norm_num [stepperProgressF64, f64Tenth]]
  apply roundF64_eval _ _ (-1) (by norm_num)
  · rw [abs_of_pos (by norm_num)]; norm_num
  · rw [abs_of_pos (by norm_num)]; norm_num
  · norm_num [roundHalfEven, stepperProgressF64]
/-- Tick 11 of the stepper's f64 accumulation of 0.1. -/
theorem f64Step11 : f64Add (stepperProgressF64 10) f64Tenth = stepperProgressF64 11 := by
  unfold f64Add
  rw [show stepperProgressF64 10 + f64Tenth = 39631676720860361 / 2 ^ 55 from by
    norm_num [stepperProgressF64, f64Tenth]]
  apply roundF64_eval _ _ (0) (by norm_num)
  · rw [abs_of_pos (by norm_num)]; norm_num
  · rw [abs_of_pos (by norm_num)]; norm_num
  · norm_num [roundHalfEven, stepperProgressF64]

/-- Unfolding rule for the host loop when the tick breaks (the new
progress has reached 1). -/
theorem runStepper_succ_break (snap : Snapshot) (m : ℕ) (p : ℚ)
    (s : FloatingBackgroundState) (h : f64Add p f64Tenth ≥ 1) :
    runStepper snap (m + 1) ⟨p, s⟩ =
      ⟨⟨f64Add p f64Tenth, tickUpdate snap (f64Add p f64Tenth) s⟩, 1, true⟩ := by
  simp only [runStepper, stepperTick]
  rw [if_pos h]
  simp

/-- Unfolding rule for the host loop when the tick continues (the new
progress is still below 1). -/
theorem runStepper_succ_cont (snap : Snapshot) (m : ℕ) (p : ℚ)
    (s : FloatingBackgroundState) (h : ¬ f64Add p f64Tenth ≥ 1) :
    runStepper snap (m + 1) ⟨p, s⟩ =
      ⟨(runStepper snap m
          ⟨f64Add p f64Tenth, tickUpdate snap (f64Add p f64Tenth) s⟩).final,
        (runStepper snap m
          ⟨f64Add p f64Tenth, tickUpdate snap (f64Add p f64Tenth) s⟩).ticks + 1,
        (runStepper snap m
          ⟨f64Add p f64Tenth, tickUpdate snap (f64Add p f64Tenth) s⟩).stopped⟩ := by
  simp only [runStepper, stepperTick]
  rw [if_neg h]
  simp

/-- Starting from progress 0, the f64 stepper stops after exactly 11 ticks
(for any host willing to call it at least 11 times): after ten ticks the
accumulated progress is 0.9999999999999999, just short of 1, so an 11th
tick runs, reaches 1.0999999999999999 and breaks; the final visual state is
the tick update at that overshoot progress. -/
theorem runStepper_f64_complete (snap : Snapshot) (f : ℕ) (hf : 11 ≤ f)
    (st : FloatingBackgroundState) :
    runStepper snap f ⟨0, st⟩ =
      ⟨⟨stepperProgressF64 11, tickUpdate snap (stepperProgressF64 11) st⟩, 11, true⟩ := by
  have G10 : ∀ (m : ℕ) (s : FloatingBackgroundState),
      runStepper snap (m + 1) ⟨stepperProgressF64 10, s⟩ =
        ⟨⟨stepperProgressF64 11, tickUpdate snap (stepperProgressF64 11) s⟩, 1, true⟩ := by
    intro m s
    rw [runStepper_succ_break snap m (stepperProgressF64 10) s
        (by rw [f64Step11]; norm_num [stepperProgressF64]),
      f64Step11]
  have G9 : ∀ (m : ℕ) (s : FloatingBackgroundState),
      runStepper snap (m + 1 + 1) ⟨stepperProgressF64 9, s⟩ =
        ⟨⟨stepperProgressF64 11, tickUpdate snap (stepperProgressF64 11) s⟩, 2, true⟩ := by
    intro m s
    rw [runStepper_succ_cont snap (m + 1) (stepperProgressF64 9) s
        (by rw [f64Step10]; norm_num [stepperProgressF64]),
      f64Step10, G10 m]
    simp [tickUpdate_tickUpdate]
  have G8 : ∀ (m : ℕ) (s : FloatingBackgroundState),
      runStepper snap (m + 1 + 1 + 1) ⟨stepperProgressF64 8, s⟩ =
        ⟨⟨stepperProgressF64 11, tickUpdate snap (stepperProgressF64 11) s⟩, 3, true⟩ := by
    intro m s
    rw [runStepper_succ_cont snap (m + 1 + 1) (stepperProgressF64 8) s
        (by rw [f64Step09]; norm_num [stepperProgressF64]),
      f64Step09, G9 m]
    simp [tickUpdate_tickUpdate]
  have G7 : ∀ (m : ℕ) (s : FloatingBackgroundState),
      runStepper snap (m + 1 + 1 + 1 + 1) ⟨stepperProgressF64 7, s⟩ =
        ⟨⟨stepperProgressF64 11, tickUpdate snap (stepperProgressF64 11) s⟩, 4, true⟩ := by
    intro m s
    rw [runStepper_succ_cont snap (m + 1 + 1 + 1) (stepperProgressF64 7) s
        (by rw [f64Step08]; norm_num [stepperProgressF64]),
      f64Step08, G8 m]
    simp [tickUpdate_tickUpdate]
  have G6 : ∀ (m : ℕ) (s : FloatingBackgroundState),
      runStepper snap (m + 1 + 1 + 1 + 1 + 1) ⟨stepperProgressF64 6, s⟩ =
        ⟨⟨stepperProgressF64 11, tickUpdate snap (stepperProgressF64 11) s⟩, 5, true⟩ := by
    intro m s
    rw [runStepper_succ_cont snap (m + 1 + 1 + 1 + 1) (stepperProgressF64 6) s
        (by rw [f64Step07]; norm_num [stepperProgressF64]),
      f64Step07, G7 m]
    simp [tickUpdate_tickUpdate]
  have G5 : ∀ (m : ℕ) (s : FloatingBackgroundState),
      runStepper snap (m + 1 + 1 + 1 + 1 + 1 + 1) ⟨stepperProgressF64 5, s⟩ =
        ⟨⟨stepperProgressF64 11, tickUpdate snap (stepperProgressF64 11) s⟩, 6, true⟩ := by
    intro m s
    rw [runStepper_succ_cont snap (m + 1 + 1 + 1 + 1 + 1) (stepperProgressF64 5) s
        (by rw [f64Step06]; norm_num [stepperProgressF64]),
      f64Step06, G6 m]
    simp [tickUpdate_tickUpdate]
  have G4 : ∀ (m : ℕ) (s : FloatingBackgroundState),
      runStepper snap (m + 1 + 1 + 1 + 1 + 1 + 1 + 1) ⟨stepperProgressF64 4, s⟩ =
        ⟨⟨stepperProgressF64 11, tickUpdate snap (stepperProgressF64 11) s⟩, 7, true⟩ := by
    intro m s
    rw [runStepper_succ_cont snap (m + 1 + 1 + 1 + 1 + 1 + 1) (stepperProgressF64 4) s
        (by rw [f64Step05]; norm_num [stepperProgressF64]),
      f64Step05, G5 m]
    simp [tickUpdate_tickUpdate]
  have G3 : ∀ (m : ℕ) (s : FloatingBackgroundState),
      runStepper snap (m + 1 + 1 + 1 + 1 + 1 + 1 + 1 + 1) ⟨stepperProgressF64 3, s⟩ =
        ⟨⟨stepperProgressF64 11, tickUpdate snap (stepperProgressF64 11) s⟩, 8, true⟩ := by
    intro m s
    rw [runStepper_succ_cont snap (m + 1 + 1 + 1 + 1 + 1 + 1 + 1) (stepperProgressF64 3) s
        (by rw [f64Step04]; norm_num [stepperProgressF64]),
      f64Step04, G4 m]
    simp [tickUpdate_tickUpdate]
  have G2 : ∀ (m : ℕ) (s : FloatingBackgroundState),
      runStepper snap (m + 1 + 1 + 1 + 1 + 1 + 1 + 1 + 1 + 1) ⟨stepperProgressF64 2, s⟩ =
        ⟨⟨stepperProgressF64 11, tickUpdate snap (stepperProgressF64 11) s⟩, 9, true⟩ := by
    intro m s
    rw [runStepper_succ_cont snap (m + 1 + 1 + 1 + 1 + 1 + 1 + 1 + 1) (stepperProgressF64 2) s
        (by rw [f64Step03]; norm_num [stepperProgressF64]),
      f64Step03, G3 m]
    simp [tickUpdate_tickUpdate]
  have G1 : ∀ (m : ℕ) (s : FloatingBackgroundState),
      runStepper snap (m + 1 + 1 + 1 + 1 + 1 + 1 + 1 + 1 + 1 + 1) ⟨stepperProgressF64 1, s⟩ =
        ⟨⟨stepperProgressF64 11, tickUpdate snap (stepperProgressF64 11) s⟩, 10, true⟩ := by
    intro m s
    rw [runStepper_succ_cont snap (m + 1 + 1 + 1 + 1 + 1 + 1 + 1 + 1 + 1) (stepperProgressF64 1) s
        (by rw [f64Step02]; norm_num [stepperProgressF64]),
      f64Step02, G2 m]
    simp [tickUpdate_tickUpdate]
  have G0 : ∀ (m : ℕ) (s : FloatingBackgroundState),
      runStepper snap (m + 1 + 1 + 1 + 1 + 1 + 1 + 1 + 1 + 1 + 1 + 1) ⟨(0 : ℚ), s⟩ =
        ⟨⟨stepperProgressF64 11, tickUpdate snap (stepperProgressF64 11) s⟩, 11, true⟩ := by
    intro m s
    rw [runStepper_succ_cont snap (m + 1 + 1 + 1 + 1 + 1 + 1 + 1 + 1 + 1 + 1) (0 : ℚ) s
        (by rw [f64Step01]; norm_num [stepperProgressF64]),
      f64Step01, G1 m]
    simp [tickUpdate_tickUpdate]
  obtain ⟨m, rfl⟩ : ∃ m, f = m + 11 := ⟨f - 11, by omega⟩
  exact G0 m st

/-- A non-no-op transition run to completion flips the floating flag,
rewrites the color to the sampled background color, and ends in the state
given by the tick update at the overshoot progress 1.0999999999999999 of
the rewritten state. -/
theorem completeTransition_run (style : Style) (w : FloatingBackgroundWidget) (value : Bool)
    (h : w.floating ≠ value) :
    completeTransition style w value =
      { w with
          floating := value
          state := tickUpdate
            ⟨value, w.max_margin, w.max_radius, w.floating_opacity,
              style.backgroundColorNormal.getD RGBA.WHITE⟩ (stepperProgressF64 11)
            { w.state with color := style.backgroundColorNormal.getD RGBA.WHITE } } := by
  unfold completeTransition transition
  rw [if_neg (by simpa using h)]
  dsimp only
  rw [runStepper_f64_complete _ 100 (by norm_num)]

/-- The margin value the stepper's final tick actually computes for the
default max_margin 7 when floating: the f64 easing at the overshoot
progress 1.0999999999999999 yields 8.469999999999999, not 7. -/
theorem easingF64_overshoot :
    easingF64 (stepperProgressF64 11) 0 7 = 298011631592407 / 2 ^ 45 := by
  unfold easingF64
  have hsub : f64Sub (7 : ℚ) 0 = 7 := by
    unfold f64Sub
    rw [show (7 : ℚ) - 0 = 7 from by norm_num]
    apply roundF64_eval _ _ 2 (by norm_num)
    · rw [abs_of_pos (by norm_num)]; norm_num
    · rw [abs_of_pos (by norm_num)]; norm_num
    · norm_num [roundHalfEven]
  have hsq : f64Mul (stepperProgressF64 11) (stepperProgressF64 11)
      = 5449355549118299 / 2 ^ 52 := by
    unfold f64Mul
    rw [show stepperProgressF64 11 * stepperProgressF64 11
        = 24541715620418515268224665927025 / 2 ^ 104 from by norm_num [stepperProgressF64]]
    apply roundF64_eval _ _ 0 (by norm_num)
    · rw [abs_of_pos (by norm_num)]; norm_num
    · rw [abs_of_pos (by norm_num)]; norm_num
    · norm_num [roundHalfEven]
  have hmul : f64Mul (5449355549118299 / 2 ^ 52 : ℚ) 7 = 298011631592407 / 2 ^ 45 := by
    unfold f64Mul
    rw [show (5449355549118299 / 2 ^ 52 : ℚ) * 7 = 38145488843828093 / 2 ^ 52 from by
      norm_num]
    apply roundF64_eval _ _ 3 (by norm_num)
    · rw [abs_of_pos (by norm_num)]; norm_num
    · rw [abs_of_pos (by norm_num)]; norm_num
    · norm_num [roundHalfEven]
  have hadd : f64Add (298011631592407 / 2 ^ 45 : ℚ) 0 = 298011631592407 / 2 ^ 45 := by
    unfold f64Add
    rw [show (298011631592407 / 2 ^ 45 : ℚ) + 0 = 298011631592407 / 2 ^ 45 from by
      norm_num]
    apply roundF64_eval _ _ 3 (by norm_num)
    · rw [abs_of_pos (by norm_num)]; norm_num
    · rw [abs_of_pos (by norm_num)]; norm_num
    · norm_num [roundHalfEven]
  rw [hsub, hsq, hmul, hadd]

/-- C5 (counterexample): at the default snapshot the stepper's callback
does not run for exactly 10 ticks: ten f64 additions of 0.1 reach only
0.9999999999999999, so an 11th tick runs before the stop signal. -/
theorem stepper_ten_ticks_counterexample :
    (runStepper ⟨true, 7, 5, f64PointEight, RGBA.WHITE⟩ 100
        ⟨0, ⟨0, 0, RGBA.WHITE⟩⟩).ticks ≠ 10 := by
  rw [runStepper_f64_complete _ 100 (by norm_num)]
  simp

/-- C5 (amended): for every transition, the periodic stepper terminates:
starting from progress = 0 it adds the f64 step 0.1 each tick and returns
the stop signal on the first tick at which progress >= 1; because ten f64
additions of 0.1 accumulate to 0.9999999999999999 < 1, that first tick is
the 11th, so the callback runs for exactly 11 ticks before stopping. -/
theorem stepper_terminates_in_eleven_ticks (snap : Snapshot)
    (st : FloatingBackgroundState) (f : ℕ) (hf : 11 ≤ f) :
    (runStepper snap f ⟨0, st⟩).ticks = 11 ∧
    (runStepper snap f ⟨0, st⟩).stopped = true ∧
    (runStepper snap f ⟨0, st⟩).final.progress = stepperProgressF64 11 ∧
    stepperProgressF64 10 < 1 ∧ (1 : ℚ) ≤ stepperProgressF64 11 := by
  rw [runStepper_f64_complete snap f hf st]
  exact ⟨rfl, rfl, rfl, by norm_num [stepperProgressF64], by norm_num [stepperProgressF64]⟩

/-- Witness for stepper_terminates_in_eleven_ticks at a concrete snapshot
and fuel 11. -/
theorem stepper_terminates_in_eleven_ticks_witness :
    (runStepper ⟨true, 7, 5, f64PointEight, RGBA.WHITE⟩ 11
        ⟨0, ⟨0, 0, RGBA.WHITE⟩⟩).ticks = 11 ∧
    (runStepper ⟨true, 7, 5, f64PointEight, RGBA.WHITE⟩ 11
        ⟨0, ⟨0, 0, RGBA.WHITE⟩⟩).stopped = true ∧
    (runStepper ⟨true, 7, 5, f64PointEight, RGBA.WHITE⟩ 11
        ⟨0, ⟨0, 0, RGBA.WHITE⟩⟩).final.progress = stepperProgressF64 11 ∧
    stepperProgressF64 10 < 1 ∧ (1 : ℚ) ≤ stepperProgressF64 11 :=
  stepper_terminates_in_eleven_ticks ⟨true, 7, 5, f64PointEight, RGBA.WHITE⟩
    ⟨0, 0, RGBA.WHITE⟩ 11 (by norm_num)

/-- C2 (code bug): setting floating = true under the default configuration
(max_margin 7, max_radius 5, floating_opacity the double of 0.8, white
style background) captures the expected snapshot, but once the stepper has
terminated the visual state is NOT at the claimed endpoint: the final tick
evaluates the easing at the overshoot progress 1.0999999999999999, leaving
margin at exactly 8.469999999999999 instead of the captured max_margin 7. -/
theorem transition_completion_overshoot :
    (transition ⟨none⟩ ⟨false, 7, 5, f64PointEight, ⟨0, 0, RGBA.WHITE⟩⟩ true).2
        = some ⟨true, 7, 5, f64PointEight, RGBA.WHITE⟩ ∧
    (runStepper ⟨true, 7, 5, f64PointEight, RGBA.WHITE⟩ 100
        ⟨0, (transition ⟨none⟩ ⟨false, 7, 5, f64PointEight,
          ⟨0, 0, RGBA.WHITE⟩⟩ true).1.state⟩).final.st.margin
      = 298011631592407 / 2 ^ 45 ∧
    (298011631592407 / 2 ^ 45 : ℚ) ≠ 7 := by
  refine ⟨rfl, ?_, by norm_num⟩
  rw [runStepper_f64_complete _ 100 (by norm_num)]
  simpa [tickUpdate] using easingF64_overshoot

/-- C6: the easing function satisfies
easing p lo hi = p * p * (hi - lo) + lo for all inputs, takes the value lo
at 0 and hi at 1, and is monotone in p on [0, 1] (nondecreasing when
lo ≤ hi, nonincreasing when hi ≤ lo); as a pure function of its arguments
it is deterministic and side-effect free by construction. -/
theorem easing_spec :
    (∀ p lo hi : ℚ, easing p lo hi = p * p * (hi - lo) + lo) ∧
    (∀ lo hi : ℚ, easing 0 lo hi = lo ∧ easing 1 lo hi = hi) ∧
    (∀ p q lo hi : ℚ, 0 ≤ p → p ≤ q → q ≤ 1 → lo ≤ hi →
      easing p lo hi ≤ easing q lo hi) ∧
    (∀ p q lo hi : ℚ, 0 ≤ p → p ≤ q → q ≤ 1 → hi ≤ lo →
      easing q lo hi ≤ easing p lo hi) := by
  refine ⟨fun p lo hi => rfl, fun lo hi => ⟨by simp [easing], by simp [easing]⟩, ?_, ?_⟩
  · intro p q lo hi hp hpq hq1 hlohi
    simp only [easing]
    nlinarith [mul_nonneg (mul_nonneg (sub_nonneg.mpr hpq)
      (show (0 : ℚ) ≤ q + p by linarith)) (sub_nonneg.mpr hlohi)]
  · intro p q lo hi hp hpq hq1 hhilo
    simp only [easing]
    nlinarith [mul_nonneg (mul_nonneg (sub_nonneg.mpr hpq)
      (show (0 : ℚ) ≤ q + p by linarith)) (sub_nonneg.mpr hhilo)]

/-- Witness for easing_spec at concrete inputs. -/
theorem easing_spec_witness :
    easing (1 / 2 : ℚ) 0 1 = (1 / 2) * (1 / 2) * (1 - 0) + 0 ∧
    easing (0 : ℚ) 3 7 = 3 ∧
    easing (1 : ℚ) 3 7 = 7 ∧
    easing (1 / 4 : ℚ) 0 1 ≤ easing (1 / 2 : ℚ) 0 1 ∧
    easing (1 / 2 : ℚ) 1 0 ≤ easing (1 / 4 : ℚ) 1 0 :=
  ⟨easing_spec.1 (1 / 2) 0 1, (easing_spec.2.1 3 7).1, (easing_spec.2.1 3 7).2,
    easing_spec.2.2.1 (1 / 4) (1 / 2) 0 1 (by norm_num) (by norm_num) (by norm_num)
      (by norm_num),
    easing_spec.2.2.2 (1 / 4) (1 / 2) 1 0 (by norm_num) (by norm_num) (by norm_num)
      (by norm_num)⟩

/-- C7: setting the floating property to its current value is a no-op: the
widget state is unchanged and no stepper is scheduled; consequently two
consecutive calls with the same value schedule exactly one stepper (the
first schedules one when the value differs, the second schedules none). -/
theorem setFloating_idempotent (style : Style) (w : FloatingBackgroundWidget) (x : Bool) :
    (w.floating = x → transition style w x = (w, none)) ∧
    (w.floating ≠ x →
      ((transition style w x).2.isSome = true ∧
        transition style (transition style w x).1 x = ((transition style w x).1, none))) := by
  cases hx : x <;> cases hw : w.floating <;> simp [transition, hw]

/-- Witness for setFloating_idempotent: a docked widget set floating twice. -/
theorem setFloating_idempotent_witness :
    (transition ⟨none⟩ ⟨false, 7, 5, 4 / 5, ⟨0, 0, RGBA.WHITE⟩⟩ true).2.isSome = true ∧
    transition ⟨none⟩ (transition ⟨none⟩ ⟨false, 7, 5, 4 / 5, ⟨0, 0, RGBA.WHITE⟩⟩ true).1 true
      = ((transition ⟨none⟩ ⟨false, 7, 5, 4 / 5, ⟨0, 0, RGBA.WHITE⟩⟩ true).1, none) :=
  (setFloating_idempotent ⟨none⟩ ⟨false, 7, 5, 4 / 5, ⟨0, 0, RGBA.WHITE⟩⟩ true).2
    (by decide)

/-- C4 (code bug): under the default configuration with a white style
background, starting at rest in the floating endpoint (margin 7, radius 5,
alpha the double of 0.8), a complete floating-to-docked transition followed
by a complete docked-to-floating transition does NOT return the visual
state to its original values: both steppers overshoot to progress
1.0999999999999999, so the round trip ends with margin 8.469999999999999
instead of the original 7. -/
theorem transition_reverse_asymmetry :
    (completeTransition ⟨none⟩
        (completeTransition ⟨none⟩
          ⟨true, 7, 5, f64PointEight, ⟨7, 5, ⟨1, 1, 1, f64PointEight⟩⟩⟩ false) true).state.margin
      ≠ (⟨true, 7, 5, f64PointEight, ⟨7, 5, ⟨1, 1, 1, f64PointEight⟩⟩⟩
          : FloatingBackgroundWidget).state.margin := by
  rw [completeTransition_run ⟨none⟩ _ false (by simp)]
  rw [completeTransition_run ⟨none⟩ _ true (by simp)]
  simp only [tickUpdate]
  simp
  rw [easingF64_overshoot]
  norm_num

/-- Behaviour of draw on a realized widget (window present), for every
failure schedule: the visual state is returned unchanged, no panic occurs,
the returned propagation is Proceed, an error is reported exactly when one
of the fallible cairo calls that actually execute fails, and the
path-construction operations are exactly the source's four-arc closed path
(emitted whenever the initial save succeeds). -/
theorem draw_realized_spec (w : DrawWidget) (env : DrawEnv) (win : Window)
    (hw : env.window = some win) :
    (draw w env).1.state = w.state ∧
    (draw w env).2.panicked = false ∧
    (draw w env).2.propagation = some Propagation.Proceed ∧
    (draw w env).2.reported
      = (env.fails 0 || env.fails 1 || env.fails 2
          || (w.content.isSome && (env.fails 3 || env.fails 4))) ∧
    (draw w env).2.ops.filter isPathOp
      = (if env.fails 0 then []
         else sourcePathOps w.state.margin w.state.radius (win.width : ℚ) (win.height : ℚ)) := by
  cases h0 : env.fails 0 <;> cases h1 : env.fails 1 <;> cases h2 : env.fails 2 <;>
    cases hc : w.content <;> cases h3 : env.fails 3 <;> cases h4 : env.fails 4 <;>
      simp [draw, hw, h0, h1, h2, h3, h4, hc, isPathOp, sourcePathOps]

/-- C1 (counterexample): at margin 1, radius 1, window 20 by 10, padding 0
and no cairo failures, the path draw builds is not the claimed rounded
rectangle inset by the margin on all four sides: the bottom arcs center at
height - radius, not height - radius - margin. -/
theorem draw_path_not_inset_all_sides :
    (draw ⟨⟨1, 1, RGBA.WHITE⟩, none⟩
        ⟨some ⟨20, 10⟩, ⟨0, 0, 0, 0⟩, allSucceed⟩).2.ops.filter isPathOp
      ≠ specPathOpsAllSides 1 1 20 10 := by
  norm_num [draw, allSucceed, isPathOp, specPathOpsAllSides, RGBA.WHITE]

/-- C1 (amended): for every paint call whose initial save succeeds, the
background path built by draw is a closed path of four 90-degree quarter
arcs of the current radius, one per corner, in the order top-left,
top-right, bottom-right, bottom-left, then closed into a loop; it is inset
by the current margin on the left, top and right sides only, while the two
bottom arcs center at height - radius, with no margin inset at the bottom. -/
theorem draw_path_ops (w : DrawWidget) (env : DrawEnv) (win : Window)
    (hw : env.window = some win) (h0 : env.fails 0 = false) :
    (draw w env).2.ops.filter isPathOp
      = sourcePathOps w.state.margin w.state.radius (win.width : ℚ) (win.height : ℚ) := by
  have h := (draw_realized_spec w env win hw).2.2.2.2
  rw [h, if_neg (by simp [h0])]

/-- Witness for draw_path_ops at a concrete widget and environment. -/
theorem draw_path_ops_witness :
    (draw ⟨⟨1, 1, RGBA.WHITE⟩, none⟩
        ⟨some ⟨20, 10⟩, ⟨0, 0, 0, 0⟩, allSucceed⟩).2.ops.filter isPathOp
      = sourcePathOps 1 1 20 10 := by
  have h := draw_path_ops ⟨⟨1, 1, RGBA.WHITE⟩, none⟩
    ⟨some ⟨20, 10⟩, ⟨0, 0, 0, 0⟩, allSucceed⟩ ⟨20, 10⟩ rfl rfl
  simpa using h

/-- C3: for every draw call on a realized widget, the visual state fields
(margin, radius, color) are unchanged when draw returns, on the success
path and on every drawing-error path; an error is reported through the
diagnostic channel exactly when one of the fallible cairo calls that
actually execute fails (aborting the rest of the paint pass). -/
theorem draw_preserves_visual_state (w : DrawWidget) (env : DrawEnv) (win : Window)
    (hw : env.window = some win) :
    (draw w env).1.state = w.state ∧
    (draw w env).2.reported
      = (env.fails 0 || env.fails 1 || env.fails 2
          || (w.content.isSome && (env.fails 3 || env.fails 4))) :=
  ⟨(draw_realized_spec w env win hw).1, (draw_realized_spec w env win hw).2.2.2.1⟩

/-- Witness for draw_preserves_visual_state: a failing fill call leaves the
visual state untouched and reports the error. -/
theorem draw_preserves_visual_state_witness :
    (draw ⟨⟨2, 3, RGBA.WHITE⟩, some ⟨0, 0, 0, 0⟩⟩
        ⟨some ⟨20, 10⟩, ⟨1, 1, 1, 1⟩, failFill⟩).1.state = ⟨2, 3, RGBA.WHITE⟩ ∧
    (draw ⟨⟨2, 3, RGBA.WHITE⟩, some ⟨0, 0, 0, 0⟩⟩
        ⟨some ⟨20, 10⟩, ⟨1, 1, 1, 1⟩, failFill⟩).2.reported = true := by
  have h := draw_preserves_visual_state ⟨⟨2, 3, RGBA.WHITE⟩, some ⟨0, 0, 0, 0⟩⟩
    ⟨some ⟨20, 10⟩, ⟨1, 1, 1, 1⟩, failFill⟩ ⟨20, 10⟩ rfl
  simpa [failFill] using h

/-- C8 (counterexample): with margin 1/2 and zero padding the code sets the
child's start margin to 0 (margin is truncated to an i32), not to
margin + padding.left = 1/2 as the claim's formula states. -/
theorem draw_child_inset_truncates :
    (((draw ⟨⟨1 / 2, 0, RGBA.WHITE⟩, some ⟨5, 5, 5, 5⟩⟩
          ⟨some ⟨20, 10⟩, ⟨0, 0, 0, 0⟩, allSucceed⟩).1.content.getD
        ⟨0, 0, 0, 0⟩).margin_start : ℚ)
      ≠ (⟨⟨1 / 2, 0, RGBA.WHITE⟩, some ⟨5, 5, 5, 5⟩⟩ : DrawWidget).state.margin
        + ((⟨some ⟨20, 10⟩, ⟨0, 0, 0, 0⟩, allSucceed⟩ : DrawEnv).padding.left : ℚ) := by
  norm_num [draw, allSucceed, rustTruncToInt]

/-- C8 (amended): for every draw call reaching the child block, the child's
margins are set to trunc(margin) + padding.left for both start and end
(symmetric horizontal inset, margin truncated toward zero to an i32) and to
trunc(margin) + padding.top for top only, the bottom margin being left
untouched, and the three margin writes happen before painting of the child
is delegated. -/
theorem draw_child_insets (w : DrawWidget) (env : DrawEnv) (win : Window)
    (child : ChildWidget) (hw : env.window = some win) (hc : w.content = some child)
    (h0 : env.fails 0 = false) (h1 : env.fails 1 = false) (h2 : env.fails 2 = false)
    (h3 : env.fails 3 = false) :
    (draw w env).1.content
      = some ⟨rustTruncToInt w.state.margin + env.padding.top, child.margin_bottom,
          rustTruncToInt w.state.margin + env.padding.left,
          rustTruncToInt w.state.margin + env.padding.left⟩ ∧
    List.IsSuffix
      [DrawOp.setMarginTop (rustTruncToInt w.state.margin + env.padding.top),
       DrawOp.setMarginStart (rustTruncToInt w.state.margin + env.padding.left),
       DrawOp.setMarginEnd (rustTruncToInt w.state.margin + env.padding.left),
       DrawOp.propagateDraw, DrawOp.resetClip, DrawOp.restore]
      (draw w env).2.ops := by
  have hops : (draw w env).2.ops =
      [DrawOp.save,
       DrawOp.setSourceRgba w.state.color.red w.state.color.green w.state.color.blue
         w.state.color.alpha,
       DrawOp.newSubPath,
       DrawOp.arc (w.state.margin + w.state.radius) (w.state.margin + w.state.radius)
         w.state.radius 180 270,
       DrawOp.arc ((win.width : ℚ) - w.state.radius - w.state.margin)
         (w.state.margin + w.state.radius) w.state.radius 270 0,
       DrawOp.arc ((win.width : ℚ) - w.state.radius - w.state.margin)
         ((win.height : ℚ) - w.state.radius) w.state.radius 0 90,
       DrawOp.arc (w.state.margin + w.state.radius) ((win.height : ℚ) - w.state.radius)
         w.state.radius 90 180,
       DrawOp.closePath, DrawOp.fill, DrawOp.restore, DrawOp.save] ++
      [DrawOp.setMarginTop (rustTruncToInt w.state.margin + env.padding.top),
       DrawOp.setMarginStart (rustTruncToInt w.state.margin + env.padding.left),
       DrawOp.setMarginEnd (rustTruncToInt w.state.margin + env.padding.left),
       DrawOp.propagateDraw, DrawOp.resetClip, DrawOp.restore] := by
    cases h4 : env.fails 4 <;> simp [draw, hw, hc, h0, h1, h2, h3, h4]
  refine ⟨?_, by rw [hops]; exact List.suffix_append _ _⟩
  cases h4 : env.fails 4 <;> simp [draw, hw, hc, h0, h1, h2, h3, h4]

/-- Witness for draw_child_insets: margin 3, padding left 5 top 2 gives
child margins top 5, start and end 8, bottom untouched at 9. -/
theorem draw_child_insets_witness :
    (draw ⟨⟨3, 0, RGBA.WHITE⟩, some ⟨9, 9, 9, 9⟩⟩
        ⟨some ⟨20, 10⟩, ⟨2, 0, 5, 0⟩, allSucceed⟩).1.content = some ⟨5, 9, 8, 8⟩ := by
  have h := (draw_child_insets ⟨⟨3, 0, RGBA.WHITE⟩, some ⟨9, 9, 9, 9⟩⟩
      ⟨some ⟨20, 10⟩, ⟨2, 0, 5, 0⟩, allSucceed⟩ ⟨20, 10⟩ ⟨9, 9, 9, 9⟩
      rfl rfl rfl rfl rfl rfl).1
  norm_num [rustTruncToInt] at h
  exact h

/-- C9: adding a child to a container that already holds one reports the
usage error through the diagnostic channel without being fatal, removes the
stale child first (which receives a removal notification), and leaves the
slot holding exactly the new child; at most one child is ever held. -/
theorem add_single_child (c0 : ContainerState) (A B : ℕ)
    (h0 : c0.content = none) (hb : c0.binChildren = []) :
    (add (add c0 A) B).content = some B ∧
    (add (add c0 A) B).binChildren = [B] ∧
    (add (add c0 A) B).removals = c0.removals ++ [A] ∧
    (add (add c0 A) B).errorsReported = c0.errorsReported + 1 ∧
    (add c0 A).errorsReported = c0.errorsReported ∧
    (∀ c x, singleChildInv c → singleChildInv (add c x)) := by
  refine ⟨by simp [add, h0, hb], by simp [add, h0, hb], by simp [add, h0, hb],
    by simp [add, h0, hb], by simp [add, h0], ?_⟩
  intro c x hinv
  rcases hinv with ⟨hc, hb2⟩ | ⟨y, hc, hb2⟩
  · exact Or.inr ⟨x, by simp [add, hc, hb2]⟩
  · exact Or.inr ⟨x, by simp [add, hc, hb2]⟩

/-- Witness for add_single_child from the empty container with widgets 1
and 2. -/
theorem add_single_child_witness :
    (add (add ⟨none, [], [], 0⟩ 1) 2).content = some 2 ∧
    (add (add ⟨none, [], [], 0⟩ 1) 2).binChildren = [2] ∧
    (add (add ⟨none, [], [], 0⟩ 1) 2).removals = [1] ∧
    (add (add ⟨none, [], [], 0⟩ 1) 2).errorsReported = 1 := by
  have h := add_single_child ⟨none, [], [], 0⟩ 1 2 rfl rfl
  exact ⟨h.1, h.2.1, by simpa using h.2.2.1, by simpa using h.2.2.2.1⟩

/-- C10: a draw call on a widget whose window is absent panics on the
window unwrap, with nothing drawn and nothing reported through the
diagnostic channel; the Result-based local recovery inside draw only
covers drawing-context errors raised after the window has been obtained,
so a draw call with a window present never panics, whatever fails. -/
theorem draw_unrealized_panics (w : DrawWidget) (env : DrawEnv) :
    (env.window = none →
      (draw w env).2.panicked = true ∧ (draw w env).2.reported = false ∧
        (draw w env).2.ops = [] ∧ (draw w env).1 = w) ∧
    (∀ win, env.window = some win → (draw w env).2.panicked = false) := by
  constructor
  · intro hw
    simp [draw, hw]
  · intro win hw
    exact (draw_realized_spec w env win hw).2.1

/-- Witness for draw_unrealized_panics on an unrealized widget. -/
theorem draw_unrealized_panics_witness :
    (draw ⟨⟨0, 0, RGBA.WHITE⟩, none⟩ ⟨none, ⟨0, 0, 0, 0⟩, allSucceed⟩).2.panicked = true ∧
    (draw ⟨⟨0, 0, RGBA.WHITE⟩, none⟩ ⟨none, ⟨0, 0, 0, 0⟩, allSucceed⟩).2.reported = false ∧
    (draw ⟨⟨0, 0, RGBA.WHITE⟩, none⟩ ⟨none, ⟨0, 0, 0, 0⟩, allSucceed⟩).2.ops = [] ∧
    (draw ⟨⟨0, 0, RGBA.WHITE⟩, none⟩ ⟨none, ⟨0, 0, 0, 0⟩, allSucceed⟩).1
      = ⟨⟨0, 0, RGBA.WHITE⟩, none⟩ :=
  (draw_unrealized_panics ⟨⟨0, 0, RGBA.WHITE⟩, none⟩ ⟨none, ⟨0, 0, 0, 0⟩, allSucceed⟩).1 rfl

end Eww
